import Mathlib

/-!
Shallow embedding of the reconciliation/normalization engine of the
pharmaceutical-data pipeline (file `src/transform.py`).

Tables are modelled as Lean lists of rows.  A raw cell of the identifier
column is `Option String` (`none` models a pandas missing value / NaN);
all other columns of a row are abstracted into a type-parametric payload,
since none of the verified properties depend on their content.
-/

namespace Pipeline

/-- `Series.astype(str)` applied to one cell: pandas renders a missing
value (NaN) as the string `"nan"`, any present value as itself. -/
def astype_str : Option String → String
  | none => "nan"
  | some s => s

/-- `.str.replace(r'\D', '', regex=True)` applied to one cell: delete
every non-digit character, keeping the digits in order
(`transform.py` lines 35 and 128). -/
def clean_identifier (s : String) : String :=
  String.mk (s.data.filter Char.isDigit)

/-- `.str.slice(0, 9)`: python slicing `s[0:9]`, the first nine
characters (fewer if the string is shorter). -/
def str_slice9 (s : String) : String :=
  String.mk (s.data.take 9)

/-- `anvisa_cols` (`transform.py` lines 24-28): the columns the ANVISA
cleaning step wants to keep. -/
def anvisa_cols : List String :=
  ["NUMERO_REGISTRO_PRODUTO", "CLASSE_TERAPEUTICA", "PRINCIPIO_ATIVO"]

/-- `[col for col in wanted if col in df.columns]`
(`transform.py` lines 30 and 124): project a wanted-column list onto the
columns actually present, keeping the wanted order.  No error is
signalled for wanted columns that are absent. -/
def cols_to_use (wanted present : List String) : List String :=
  wanted.filter (fun c => present.contains c)

/-- `cmed_cols` (`transform.py` lines 86-123): the columns the CMED
cleaning step wants to keep after the rename. -/
def cmed_cols : List String :=
  ["LABORATORIO",
   "CNPJ",
   "REGISTRO_CMED",
   "PRODUTO",
   "APRESENTACAO",
   "TIPO_PRODUTO",
   "TARJA",
   "CODIGO_GGREM",
   "REGIME_DE_PRECO",
   "PRECO_MAXIMO_AO_CONSUMIDOR_SEM_IMPOSTOS",
   "PRECO_MAXIMO_AO_CONSUMIDOR_PERCENTUAL_SEM_ICMS",
   "PRECO_MAXIMO_AO_CONSUMIDOR_PERCENTUAL_12",
   "PRECO_MAXIMO_AO_CONSUMIDOR_PERCENTUAL_12_AREA_DE_LIVRE_COMERCIO",
   "PRECO_MAXIMO_AO_CONSUMIDOR_PERCENTUAL_17",
   "PRECO_MAXIMO_AO_CONSUMIDOR_PERCENTUAL_17_AREA_DE_LIVRE_COMERCIO",
   "PRECO_MAXIMO_AO_CONSUMIDOR_PERCENTUAL_17_5",
   "PRECO_MAXIMO_AO_CONSUMIDOR_PERCENTUAL_17_5_AREA_DE_LIVRE_COMERCIO",
   "PRECO_MAXIMO_AO_CONSUMIDOR_PERCENTUAL_18",
   "PRECO_MAXIMO_AO_CONSUMIDOR_PERCENTUAL_18_AREA_DE_LIVRE_COMERCIO",
   "PRECO_MAXIMO_AO_CONSUMIDOR_PERCENTUAL_19",
   "PRECO_MAXIMO_AO_CONSUMIDOR_PERCENTUAL_19_AREA_DE_LIVRE_COMERCIO",
   "PRECO_MAXIMO_AO_CONSUMIDOR_PERCENTUAL_19_5",
   "PRECO_MAXIMO_AO_CONSUMIDOR_PERCENTUAL_20",
   "PRECO_MAXIMO_AO_CONSUMIDOR_PERCENTUAL_20_AREA_DE_LIVRE_COMERCIO",
   "PRECO_MAXIMO_AO_CONSUMIDOR_PERCENTUAL_20_5",
   "PRECO_MAXIMO_AO_CONSUMIDOR_PERCENTUAL_20_5_AREA_DE_LIVRE_COMERCIO",
   "PRECO_MAXIMO_AO_CONSUMIDOR_PERCENTUAL_21",
   "PRECO_MAXIMO_AO_CONSUMIDOR_PERCENTUAL_21_AREA_DE_LIVRE_COMERCIO",
   "PRECO_MAXIMO_AO_CONSUMIDOR_PERCENTUAL_22",
   "PRECO_MAXIMO_AO_CONSUMIDOR_PERCENTUAL_22_AREA_DE_LIVRE_COMERCIO",
   "PRECO_MAXIMO_AO_CONSUMIDOR_PERCENTUAL_22_5",
   "PRECO_MAXIMO_AO_CONSUMIDOR_PERCENTUAL_22_5_AREA_DE_LIVRE_COMERCIO",
   "PRECO_MAXIMO_AO_CONSUMIDOR_PERCENTUAL_23",
   "PRECO_MAXIMO_AO_CONSUMIDOR_PERCENTUAL_23_AREA_DE_LIVRE_COMERCIO",
   "RESTRICAO_HOSPITALAR",
   "LISTA_DE_CONCESSAO_DE_CREDITO_TRIBUTARIO_PIS_COFINS"]

/-- A row of a raw source table: the identifier cell (possibly missing)
plus the rest of the row, abstracted. -/
structure RawRow (α : Type) where
  registro : Option String
  payload : α
deriving DecidableEq

/-- A cleaned ANVISA row: `NUMERO_REGISTRO_PRODUTO` after
astype/replace/slice (`transform.py` lines 34-37). -/
structure AnvisaRow (α : Type) where
  numero_registro_produto : String
  payload : α
deriving DecidableEq

/-- A cleaned CMED row: `REGISTRO_CMED` after astype/replace and the
derived merge column `REGISTRO_BASE` (`transform.py` lines 127-131). -/
structure CmedRow (β : Type) where
  registro_cmed : String
  registro_base : String
  payload : β
deriving DecidableEq

/-- The astype + regex-replace step on the identifier column of one row
(`df[col].astype(str).str.replace(r'\D', '', regex=True)`).  The result
cell is always a present string. -/
def replace_step (r : RawRow α) : RawRow α :=
  { r with registro := some (clean_identifier (astype_str r.registro)) }

/-- `df.dropna(subset=[identifier_column])`: keep the rows whose
identifier cell is not missing (`transform.py` lines 36 and 129). -/
def dropna_registro (rows : List (RawRow α)) : List (RawRow α) :=
  rows.filter (fun r => r.registro.isSome)

/-- Final ANVISA step: truncate the identifier to its first nine
characters (`transform.py` line 37). -/
def anvisa_finish (r : RawRow α) : AnvisaRow α :=
  { numero_registro_produto := str_slice9 (r.registro.getD "")
    payload := r.payload }

/-- `clean_anvisa_data` (`transform.py` lines 22-44), restricted to the
row-level pipeline on the identifier column: astype(str) + strip
non-digits, dropna on the identifier, slice to nine characters.
Row order is the source order throughout. -/
def clean_anvisa_data (rows : List (RawRow α)) : List (AnvisaRow α) :=
  (dropna_registro (rows.map replace_step)).map anvisa_finish

/-- Final CMED step: keep the cleaned `REGISTRO_CMED` and add the merge
column `REGISTRO_BASE`, its first nine characters
(`transform.py` line 131). -/
def cmed_finish (r : RawRow β) : CmedRow β :=
  { registro_cmed := r.registro.getD ""
    registro_base := str_slice9 (r.registro.getD "")
    payload := r.payload }

/-- `clean_cmed_data` (`transform.py` lines 47-139), restricted to the
row-level pipeline on the identifier column: astype(str) + strip
non-digits, dropna on the identifier, derive `REGISTRO_BASE` as the
nine-character prefix.  Row order is the source order throughout. -/
def clean_cmed_data (rows : List (RawRow β)) : List (CmedRow β) :=
  (dropna_registro (rows.map replace_step)).map cmed_finish

/-- `merge_datasets` (`transform.py` lines 142-152):
`pd.merge(anvisa_df, cmed_df, left_on='NUMERO_REGISTRO_PRODUTO',
right_on='REGISTRO_BASE', how='inner')`.  An inner equi-join producing
one output row for every (left row, right row) pair with equal keys,
left-major order, right matches in right order — pandas performs no
deduplication of either side. -/
def merge_datasets (anvisa : List (AnvisaRow α)) (cmed : List (CmedRow β)) :
    List (AnvisaRow α × CmedRow β) :=
  anvisa.flatMap (fun a =>
    (cmed.filter (fun c => c.registro_base == a.numero_registro_produto)).map
      (fun c => (a, c)))

/-- Outcome of the pre-load file check of `run`
(`transform.py` lines 158-164). -/
inductive RunOutcome
  | fileNotFoundError
  | proceeds
deriving DecidableEq

/-- `run`'s file check (`transform.py` lines 158-164):
`if not os.path.exists(anvisa_path) or cmed_path is None: raise
FileNotFoundError(...)`.  `anvisa_exists` models
`os.path.exists(anvisa_path)`, `cmed_path` the result of
`find_latest_cmed_file()`. -/
def run_precheck (anvisa_exists : Bool) (cmed_path : Option String) : RunOutcome :=
  if !anvisa_exists || cmed_path.isNone then .fileNotFoundError else .proceeds

/-- A directory entry as seen by `find_latest_cmed_file`: a file name
and its modification time (`os.path.getmtime`). -/
structure FileEntry where
  name : String
  mtime : Nat
deriving DecidableEq

/-- Substring test on character lists: `has_substr pat l` is true when
`pat` occurs contiguously inside `l`. -/
def has_substr (pat : List Char) : List Char → Bool
  | [] => pat.isEmpty
  | c :: cs => pat.isPrefixOf (c :: cs) || has_substr pat cs

/-- `glob.glob(os.path.join(DATA_DIR, '*.xls*'))` membership test for a
single file name: the glob pattern `*.xls*` matches a name exactly when
it contains `.xls` as a substring and, since the pattern starts with
`*`, the name is not a hidden file (leading dot). -/
def matches_xls_glob (name : String) : Bool :=
  !(List.isPrefixOf ['.'] name.data) && has_substr ".xls".data name.data

/-- `max(files, key=os.path.getmtime)`: python's `max` keeps the current
best and replaces it only on a strictly greater key, so the first
element with the maximal mtime wins. -/
def max_by_mtime (f : FileEntry) (fs : List FileEntry) : FileEntry :=
  fs.foldl (fun best g => if best.mtime < g.mtime then g else best) f

/-- `find_latest_cmed_file` (`transform.py` lines 11-19): glob the
raw-data directory for `*.xls*`, return `none` when nothing matches,
otherwise the match with the latest modification time. -/
def find_latest_cmed_file (files : List FileEntry) : Option FileEntry :=
  match files.filter (fun f => matches_xls_glob f.name) with
  | [] => none
  | f :: fs => some (max_by_mtime f fs)

/-- `cmed_col_rename` (`transform.py` lines 49-83): the fixed rename
table applied to the CMED header via `df.rename(columns=...)`. -/
def cmed_col_rename : List (String × String) :=
  [("LABORATÓRIO", "LABORATORIO"),
   ("REGISTRO", "REGISTRO_CMED"),
   ("APRESENTAÇÃO", "APRESENTACAO"),
   ("TIPO DE PRODUTO (STATUS DO PRODUTO)", "TIPO_PRODUTO"),
   ("CÓDIGO GGREM ", "CODIGO_GGREM"),
   ("REGIME DE PREÇO", "REGIME_DE_PRECO"),
   ("PMC Sem Impostos", "PRECO_MAXIMO_AO_CONSUMIDOR_SEM_IMPOSTOS"),
   ("PMC 0 %", "PRECO_MAXIMO_AO_CONSUMIDOR_PERCENTUAL_SEM_ICMS"),
   ("PMC 12 %", "PRECO_MAXIMO_AO_CONSUMIDOR_PERCENTUAL_12"),
   ("PMC 12 %  ALC", "PRECO_MAXIMO_AO_CONSUMIDOR_PERCENTUAL_12_AREA_DE_LIVRE_COMERCIO"),
   ("PMC 17 %", "PRECO_MAXIMO_AO_CONSUMIDOR_PERCENTUAL_17"),
   ("PMC 17 %  ALC", "PRECO_MAXIMO_AO_CONSUMIDOR_PERCENTUAL_17_AREA_DE_LIVRE_COMERCIO"),
   ("PMC 17,5 %", "PRECO_MAXIMO_AO_CONSUMIDOR_PERCENTUAL_17_5"),
   ("PMC 17,5 %  ALC", "PRECO_MAXIMO_AO_CONSUMIDOR_PERCENTUAL_17_5_AREA_DE_LIVRE_COMERCIO"),
   ("PMC 18 %", "PRECO_MAXIMO_AO_CONSUMIDOR_PERCENTUAL_18"),
   ("PMC 18 %  ALC", "PRECO_MAXIMO_AO_CONSUMIDOR_PERCENTUAL_18_AREA_DE_LIVRE_COMERCIO"),
   ("PMC 19 %", "PRECO_MAXIMO_AO_CONSUMIDOR_PERCENTUAL_19"),
   ("PMC 19 %  ALC", "PRECO_MAXIMO_AO_CONSUMIDOR_PERCENTUAL_19_AREA_DE_LIVRE_COMERCIO"),
   ("PMC 19,5 %", "PRECO_MAXIMO_AO_CONSUMIDOR_PERCENTUAL_19_5"),
   ("PMC 20 %", "PRECO_MAXIMO_AO_CONSUMIDOR_PERCENTUAL_20"),
   ("PMC 20 %  ALC", "PRECO_MAXIMO_AO_CONSUMIDOR_PERCENTUAL_20_AREA_DE_LIVRE_COMERCIO"),
   ("PMC 20,5 %", "PRECO_MAXIMO_AO_CONSUMIDOR_PERCENTUAL_20_5"),
   ("PMC 20,5 %  ALC", "PRECO_MAXIMO_AO_CONSUMIDOR_PERCENTUAL_20_5_AREA_DE_LIVRE_COMERCIO"),
   ("PMC 21 %", "PRECO_MAXIMO_AO_CONSUMIDOR_PERCENTUAL_21"),
   ("PMC 21 %  ALC", "PRECO_MAXIMO_AO_CONSUMIDOR_PERCENTUAL_21_AREA_DE_LIVRE_COMERCIO"),
   ("PMC 22 %", "PRECO_MAXIMO_AO_CONSUMIDOR_PERCENTUAL_22"),
   ("PMC 22 %  ALC", "PRECO_MAXIMO_AO_CONSUMIDOR_PERCENTUAL_22_AREA_DE_LIVRE_COMERCIO"),
   ("PMC 22,5 %", "PRECO_MAXIMO_AO_CONSUMIDOR_PERCENTUAL_22_5"),
   ("PMC 22,5 %  ALC", "PRECO_MAXIMO_AO_CONSUMIDOR_PERCENTUAL_22_5_AREA_DE_LIVRE_COMERCIO"),
   ("PMC 23 %", "PRECO_MAXIMO_AO_CONSUMIDOR_PERCENTUAL_23"),
   ("PMC 23 %  ALC", "PRECO_MAXIMO_AO_CONSUMIDOR_PERCENTUAL_23_AREA_DE_LIVRE_COMERCIO"),
   ("RESTRIÇÃO HOSPITALAR", "RESTRICAO_HOSPITALAR"),
   ("LISTA DE CONCESSÃO DE CRÉDITO TRIBUTÁRIO (PIS/COFINS)",
    "LISTA_DE_CONCESSAO_DE_CREDITO_TRIBUTARIO_PIS_COFINS")]

/-- `df.rename(columns=cmed_col_rename)` on one header label: replace it
by its image when the table has an entry for it, keep it unchanged
otherwise. -/
def rename_col (m : List (String × String)) (c : String) : String :=
  match m.find? (fun p => p.1 == c) with
  | some p => p.2
  | none => c

/-- A label made only of lowercase ASCII letters and digits — the
canonical token shape the specification ascribes to normalized price
headers. -/
def is_lower_alnum_token (s : String) : Bool :=
  s.data.all (fun c => c.isLower || c.isDigit)

/-- A label made of uppercase ASCII letters, digits and underscores —
the shape the rename table actually produces. -/
def is_upper_snake_token (s : String) : Bool :=
  s.data.all (fun c => c.isUpper || c.isDigit || c == '_')

/-- `final_columns` (`transform.py` lines 187-227): the declared,
ordered output column list of `run`. -/
def final_columns : List String :=
  ["NUMERO_REGISTRO_PRODUTO",
   "CLASSE_TERAPEUTICA",
   "PRINCIPIO_ATIVO",
   "LABORATORIO",
   "CNPJ",
   "REGISTRO_CMED",
   "PRODUTO",
   "APRESENTACAO",
   "TIPO_PRODUTO",
   "TARJA",
   "CODIGO_GGREM",
   "REGIME_DE_PRECO",
   "PRECO_MAXIMO_AO_CONSUMIDOR_SEM_IMPOSTOS",
   "PRECO_MAXIMO_AO_CONSUMIDOR_PERCENTUAL_SEM_ICMS",
   "PRECO_MAXIMO_AO_CONSUMIDOR_PERCENTUAL_12",
   "PRECO_MAXIMO_AO_CONSUMIDOR_PERCENTUAL_12_AREA_DE_LIVRE_COMERCIO",
   "PRECO_MAXIMO_AO_CONSUMIDOR_PERCENTUAL_17",
   "PRECO_MAXIMO_AO_CONSUMIDOR_PERCENTUAL_17_AREA_DE_LIVRE_COMERCIO",
   "PRECO_MAXIMO_AO_CONSUMIDOR_PERCENTUAL_17_5",
   "PRECO_MAXIMO_AO_CONSUMIDOR_PERCENTUAL_17_5_AREA_DE_LIVRE_COMERCIO",
   "PRECO_MAXIMO_AO_CONSUMIDOR_PERCENTUAL_18",
   "PRECO_MAXIMO_AO_CONSUMIDOR_PERCENTUAL_18_AREA_DE_LIVRE_COMERCIO",
   "PRECO_MAXIMO_AO_CONSUMIDOR_PERCENTUAL_19",
   "PRECO_MAXIMO_AO_CONSUMIDOR_PERCENTUAL_19_AREA_DE_LIVRE_COMERCIO",
   "PRECO_MAXIMO_AO_CONSUMIDOR_PERCENTUAL_19_5",
   "PRECO_MAXIMO_AO_CONSUMIDOR_PERCENTUAL_20",
   "PRECO_MAXIMO_AO_CONSUMIDOR_PERCENTUAL_20_AREA_DE_LIVRE_COMERCIO",
   "PRECO_MAXIMO_AO_CONSUMIDOR_PERCENTUAL_20_5",
   "PRECO_MAXIMO_AO_CONSUMIDOR_PERCENTUAL_20_5_AREA_DE_LIVRE_COMERCIO",
   "PRECO_MAXIMO_AO_CONSUMIDOR_PERCENTUAL_21",
   "PRECO_MAXIMO_AO_CONSUMIDOR_PERCENTUAL_21_AREA_DE_LIVRE_COMERCIO",
   "PRECO_MAXIMO_AO_CONSUMIDOR_PERCENTUAL_22",
   "PRECO_MAXIMO_AO_CONSUMIDOR_PERCENTUAL_22_AREA_DE_LIVRE_COMERCIO",
   "PRECO_MAXIMO_AO_CONSUMIDOR_PERCENTUAL_22_5",
   "PRECO_MAXIMO_AO_CONSUMIDOR_PERCENTUAL_22_5_AREA_DE_LIVRE_COMERCIO",
   "PRECO_MAXIMO_AO_CONSUMIDOR_PERCENTUAL_23",
   "PRECO_MAXIMO_AO_CONSUMIDOR_PERCENTUAL_23_AREA_DE_LIVRE_COMERCIO",
   "RESTRICAO_HOSPITALAR",
   "LISTA_DE_CONCESSAO_DE_CREDITO_TRIBUTARIO_PIS_COFINS"]

/-- `final_columns_exist = [col for col in final_columns if col in
df_unified.columns]` followed by `df_unified[final_columns_exist]`
(`transform.py` lines 229-231): the output-assembly column selection. -/
def final_columns_exist (present : List String) : List String :=
  final_columns.filter (fun c => present.contains c)

/-! ### Helper lemmas -/

lemma dropna_map_replace (rows : List (RawRow α)) :
    dropna_registro (rows.map replace_step) = rows.map replace_step := by
  refine List.filter_eq_self.mpr ?_
  intro r hr
  rcases List.mem_map.mp hr with ⟨s, _, rfl⟩
  rfl

lemma clean_anvisa_eq_map (rows : List (RawRow α)) :
    clean_anvisa_data rows = rows.map (fun r => anvisa_finish (replace_step r)) := by
  unfold clean_anvisa_data
  rw [dropna_map_replace, List.map_map]
  rfl

lemma clean_cmed_eq_map (rows : List (RawRow β)) :
    clean_cmed_data rows = rows.map (fun r => cmed_finish (replace_step r)) := by
  unfold clean_cmed_data
  rw [dropna_map_replace, List.map_map]
  rfl

lemma str_slice9_length_le (s : String) : (str_slice9 s).length ≤ 9 := by
  show (s.data.take 9).length ≤ 9
  rw [List.length_take]
  exact min_le_left 9 s.data.length

lemma merge_length (anvisa : List (AnvisaRow α)) (cmed : List (CmedRow β)) :
    (merge_datasets anvisa cmed).length =
      (anvisa.map (fun a =>
        (cmed.filter (fun c => c.registro_base == a.numero_registro_produto)).length)).sum := by
  induction anvisa with
  | nil => rfl
  | cons a t ih =>
    unfold merge_datasets at ih ⊢
    simp only [List.flatMap_cons, List.length_append, List.length_map, List.map_cons,
      List.sum_cons, ih]

lemma merge_mem {anvisa : List (AnvisaRow α)} {cmed : List (CmedRow β)}
    {m : AnvisaRow α × CmedRow β} (hm : m ∈ merge_datasets anvisa cmed) :
    m.1 ∈ anvisa ∧ m.2 ∈ cmed ∧ m.2.registro_base = m.1.numero_registro_produto := by
  unfold merge_datasets at hm
  rcases List.mem_flatMap.mp hm with ⟨a, ha, hmap⟩
  rcases List.mem_map.mp hmap with ⟨c, hc, rfl⟩
  rcases List.mem_filter.mp hc with ⟨hcm, hkey⟩
  exact ⟨ha, hcm, by simpa using hkey⟩

lemma filter_key_length_le_one (cmed : List (CmedRow β)) (k : String)
    (h : (cmed.map (fun c => c.registro_base)).Nodup) :
    (cmed.filter (fun c => c.registro_base == k)).length ≤ 1 := by
  induction cmed with
  | nil => simp
  | cons c t ih =>
    rw [List.map_cons, List.nodup_cons] at h
    by_cases hk : c.registro_base == k
    · have hbk : c.registro_base = k := by simpa using hk
      have ht : t.filter (fun c => c.registro_base == k) = [] := by
        refine List.filter_eq_nil_iff.mpr ?_
        intro x hx hxk
        have hxk' : x.registro_base = k := by simpa using hxk
        exact h.1 (List.mem_map.mpr ⟨x, hx, by rw [hxk', hbk]⟩)
      simp [List.filter_cons, hk, ht]
    · simpa [List.filter_cons, hk] using ih h.2

lemma merge_length_le_of_nodup (anvisa : List (AnvisaRow α)) (cmed : List (CmedRow β))
    (h : (cmed.map (fun c => c.registro_base)).Nodup) :
    (merge_datasets anvisa cmed).length ≤ anvisa.length := by
  rw [merge_length]
  calc (anvisa.map (fun a =>
          (cmed.filter (fun c => c.registro_base == a.numero_registro_produto)).length)).sum
      ≤ (anvisa.map (fun _ => 1)).sum := by
        refine List.sum_le_sum ?_
        intro a _
        exact filter_key_length_le_one cmed _ h
    _ = anvisa.length := by
        simp

lemma max_by_mtime_cons (f g : FileEntry) (t : List FileEntry) :
    max_by_mtime f (g :: t) = max_by_mtime (if f.mtime < g.mtime then g else f) t := rfl

lemma max_by_mtime_mem (fs : List FileEntry) : ∀ f, max_by_mtime f fs ∈ f :: fs := by
  induction fs with
  | nil => intro f; simp [max_by_mtime]
  | cons g t ih =>
    intro f
    rw [max_by_mtime_cons]
    rcases List.mem_cons.mp (ih (if f.mtime < g.mtime then g else f)) with h1 | h1
    · rw [h1]
      by_cases hfg : f.mtime < g.mtime <;> simp [hfg]
    · simp [List.mem_cons.mpr (Or.inr h1)]

lemma max_by_mtime_ge (fs : List FileEntry) :
    ∀ f g, g ∈ f :: fs → g.mtime ≤ (max_by_mtime f fs).mtime := by
  induction fs with
  | nil =>
    intro f g hg
    rcases List.mem_cons.mp hg with h | h
    · rw [h]; exact le_refl _
    · simp at h
  | cons x t ih =>
    intro f g hg
    rw [max_by_mtime_cons]
    have hstepf : f.mtime ≤ (if f.mtime < x.mtime then x else f).mtime := by
      by_cases hfx : f.mtime < x.mtime
      · simp only [hfx, if_true]
        omega
      · simp [hfx]
    have hstepx : x.mtime ≤ (if f.mtime < x.mtime then x else f).mtime := by
      by_cases hfx : f.mtime < x.mtime
      · simp [hfx]
      · simp only [hfx, if_false]
        omega
    rcases List.mem_cons.mp hg with h | h
    · subst h
      exact le_trans hstepf (ih _ _ (List.mem_cons_self _ _))
    · rcases List.mem_cons.mp h with h2 | h2
      · subst h2
        exact le_trans hstepx (ih _ _ (List.mem_cons_self _ _))
      · exact ih _ g (List.mem_cons_of_mem _ h2)

/-! ### Claim theorems -/

/-- Claim C6: the identifier-cleaning operation returns a string
containing only digit characters, and it is idempotent. -/
theorem clean_identifier_digits_and_idem (s : String) :
    ((clean_identifier s).data.all Char.isDigit = true) ∧
    clean_identifier (clean_identifier s) = clean_identifier s := by
  constructor
  · rw [List.all_eq_true]
    intro a ha
    exact (List.mem_filter.mp ha).2
  · show String.mk ((s.data.filter Char.isDigit).filter Char.isDigit) =
      String.mk (s.data.filter Char.isDigit)
    rw [List.filter_filter]
    simp

/-- Claim C10: `clean_anvisa_data` and `clean_cmed_data` preserve the
row count and row order of their input: each equals a plain `map` of
the per-row cleaning over the input, because `dropna` on the identifier
column removes nothing after `astype(str)` made every cell a present
string. -/
theorem clean_preserves_rows (α β : Type) (rows : List (RawRow α)) (rows2 : List (RawRow β)) :
    clean_anvisa_data rows = rows.map (fun r => anvisa_finish (replace_step r)) ∧
    clean_cmed_data rows2 = rows2.map (fun r => cmed_finish (replace_step r)) ∧
    (clean_anvisa_data rows).length = rows.length ∧
    (clean_cmed_data rows2).length = rows2.length := by
  refine ⟨clean_anvisa_eq_map rows, clean_cmed_eq_map rows2, ?_, ?_⟩
  · rw [clean_anvisa_eq_map, List.length_map]
  · rw [clean_cmed_eq_map, List.length_map]

/-- Claim C1 counterexample: a price table with two rows sharing the
9-character JoinKey prefix is not deduplicated — both price rows appear
in the joined output and the single registry row is matched twice. -/
theorem merge_no_dedup_counterexample :
    ((merge_datasets (clean_anvisa_data [⟨some "123456789-0", (0 : Nat)⟩])
        (clean_cmed_data [⟨some "123456789001", (10 : Nat)⟩,
          ⟨some "123456789002", (20 : Nat)⟩])).map (fun m => m.2.payload) = [10, 20]) ∧
    ¬((merge_datasets (clean_anvisa_data [⟨some "123456789-0", (0 : Nat)⟩])
        (clean_cmed_data [⟨some "123456789001", (10 : Nat)⟩,
          ⟨some "123456789002", (20 : Nat)⟩])).length ≤ 1) := by
  exact ⟨rfl, by decide⟩

/-- Claim C1 amended: `merge_datasets` performs no deduplication — it
emits one output row per (registry row, price row) pair with equal
keys, so the output length is the sum over registry rows of the number
of price rows sharing that row's key. -/
theorem merge_join_multiplicity (α β : Type)
    (anvisa : List (AnvisaRow α)) (cmed : List (CmedRow β)) :
    (merge_datasets anvisa cmed).length =
      (anvisa.map (fun a =>
        (cmed.filter (fun c => c.registro_base == a.numero_registro_produto)).length)).sum :=
  merge_length anvisa cmed

/-- Claim C2 counterexample: a registry row and a price row whose
cleaned identifiers have only five digits are not excluded, and they
join on a five-character key — a JoinKey of length other than nine is
actually used in the join. -/
theorem short_joinkey_counterexample :
    ((merge_datasets (clean_anvisa_data [⟨some "123-45", (0 : Nat)⟩])
        (clean_cmed_data [⟨some "12345AB", (0 : Nat)⟩])).map
      (fun m => m.1.numero_registro_produto.length) = [5]) ∧
    (clean_anvisa_data [⟨some "123-45", (0 : Nat)⟩]).length = 1 := by
  exact ⟨rfl, rfl⟩

/-- Claim C2 amended: no row is excluded by the cleaning functions; the
JoinKey is the nine-character prefix of the cleaned identifier, so
every JoinKey has length at most nine (shorter when the cleaned
identifier has fewer than nine digits), and equal shorter keys join. -/
theorem joinkey_length_le_nine (α β : Type)
    (rows : List (RawRow α)) (rows2 : List (RawRow β)) :
    (clean_anvisa_data rows).length = rows.length ∧
    (clean_cmed_data rows2).length = rows2.length ∧
    (∀ r ∈ clean_anvisa_data rows, r.numero_registro_produto.length ≤ 9) ∧
    (∀ r ∈ clean_cmed_data rows2, r.registro_base.length ≤ 9) := by
  refine ⟨?_, ?_, ?_, ?_⟩
  · rw [clean_anvisa_eq_map, List.length_map]
  · rw [clean_cmed_eq_map, List.length_map]
  · intro r hr
    rw [clean_anvisa_eq_map] at hr
    rcases List.mem_map.mp hr with ⟨s, _, rfl⟩
    exact str_slice9_length_le _
  · intro r hr
    rw [clean_cmed_eq_map] at hr
    rcases List.mem_map.mp hr with ⟨s, _, rfl⟩
    exact str_slice9_length_le _

/-- Witness for the C2 amended theorem at a concrete input. -/
theorem joinkey_length_le_nine_witness :
    (AnvisaRow.mk "123456789" (0 : Nat)).numero_registro_produto.length ≤ 9 :=
  (joinkey_length_le_nine Nat Nat [⟨some "12345678901", 0⟩] [⟨some "1", 0⟩]).2.2.1
    ⟨"123456789", 0⟩ (by decide)

/-- Claim C3 counterexample: with the registry file present and the
price source not located, `run`'s file check raises
`FileNotFoundError` — the run aborts instead of producing a degraded
registry-only output. -/
theorem run_precheck_aborts_counterexample :
    run_precheck true none = RunOutcome.fileNotFoundError ∧
    run_precheck true none ≠ RunOutcome.proceeds := by
  exact ⟨rfl, by decide⟩

/-- Claim C3 amended: `run` proceeds past its file check exactly when
the registry file exists and a price spreadsheet was located; in every
other case, including price-source-absent with registry present, it
aborts with `FileNotFoundError`. -/
theorem run_precheck_characterization (a : Bool) (c : Option String) :
    run_precheck a c = RunOutcome.proceeds ↔ (a = true ∧ c.isSome = true) := by
  cases a <;> cases c <;> simp [run_precheck]

/-- Claim C4 counterexample: with the required identifier column absent
from the header set, the column projection silently keeps the remaining
wanted columns and continues — no `MissingFields` failure exists, the
projection is a total function into column lists. -/
theorem cols_to_use_silent_counterexample :
    cols_to_use anvisa_cols ["CLASSE_TERAPEUTICA"] = ["CLASSE_TERAPEUTICA"] ∧
    cols_to_use cmed_cols ["TARJA"] = ["TARJA"] := by
  exact ⟨rfl, rfl⟩

/-- Claim C4 amended: the column projection of the cleaning functions
keeps exactly the wanted columns that are present, in wanted order, and
silently continues when required columns are missing — it never signals
an error. -/
theorem cols_to_use_spec (wanted present : List String) :
    (cols_to_use wanted present).Sublist wanted ∧
    ∀ c, c ∈ cols_to_use wanted present ↔ (c ∈ wanted ∧ c ∈ present) := by
  constructor
  · exact List.filter_sublist wanted
  · intro c
    simp [cols_to_use, List.mem_filter, List.contains]

/-- Claim C5 counterexample: with a duplicated price-side JoinKey the
joined output has two rows while the cleaned registry input has one, so
the output row count exceeds the registry-side row count. -/
theorem merge_exceeds_registry_counterexample :
    (merge_datasets (clean_anvisa_data [⟨some "11111111101", (0 : Nat)⟩])
        (clean_cmed_data [⟨some "111111111AA", (1 : Nat)⟩,
          ⟨some "111111111BB", (2 : Nat)⟩])).length = 2 ∧
    (clean_anvisa_data [⟨some "11111111101", (0 : Nat)⟩]).length = 1 := by
  exact ⟨rfl, rfl⟩

/-- Claim C5 amended: every joined row pairs a registry row and a price
row of the cleaned inputs with equal JoinKeys, and the output row count
is at most the registry row count provided the price-side JoinKeys are
pairwise distinct; duplicated price-side keys can exceed that bound. -/
theorem merge_inner_join_bound (α β : Type)
    (anvisa : List (AnvisaRow α)) (cmed : List (CmedRow β)) :
    (∀ m ∈ merge_datasets anvisa cmed,
      m.1 ∈ anvisa ∧ m.2 ∈ cmed ∧ m.2.registro_base = m.1.numero_registro_produto) ∧
    ((cmed.map (fun c => c.registro_base)).Nodup →
      (merge_datasets anvisa cmed).length ≤ anvisa.length) :=
  ⟨fun _ hm => merge_mem hm, fun h => merge_length_le_of_nodup anvisa cmed h⟩

/-- Witness for the C5 amended theorem at a concrete input. -/
theorem merge_inner_join_bound_witness :
    (merge_datasets [AnvisaRow.mk "111111111" (0 : Nat)]
      [CmedRow.mk "1111111110001" "111111111" (5 : Nat)]).length ≤ 1 :=
  (merge_inner_join_bound Nat Nat [⟨"111111111", 0⟩]
    [⟨"1111111110001", "111111111", 5⟩]).2 (by decide)

/-- Claim C7 counterexample: the price-source header normalization is
the fixed rename table, and its output for `LABORATÓRIO` is
`LABORATORIO`, which is not a lowercase alphanumeric token. -/
theorem rename_not_lower_alnum_counterexample :
    rename_col cmed_col_rename "LABORATÓRIO" = "LABORATORIO" ∧
    is_lower_alnum_token (rename_col cmed_col_rename "LABORATÓRIO") = false := by
  exact ⟨rfl, rfl⟩

/-- Claim C7 amended: price-source header normalization is a fixed
finite rename table whose targets consist only of uppercase ASCII
letters, digits and underscores; labels without an entry pass through
unchanged — no algorithmic lowercasing or diacritic stripping exists. -/
theorem cmed_rename_upper_snake :
    cmed_col_rename.all (fun p => is_upper_snake_token p.2) = true ∧
    ∀ c, cmed_col_rename.find? (fun p => p.1 == c) = none →
      rename_col cmed_col_rename c = c := by
  constructor
  · decide
  · intro c hc
    unfold rename_col
    rw [hc]

/-- Witness for the C7 amended theorem at a concrete input. -/
theorem cmed_rename_upper_snake_witness :
    rename_col cmed_col_rename "PRODUTO X" = "PRODUTO X" :=
  cmed_rename_upper_snake.2 "PRODUTO X" (by decide)

/-- Claim C8: the price-source locator returns `none` exactly when no
file matches the spreadsheet glob pattern, and otherwise returns a
matching file of the directory with the latest modification time. -/
theorem find_latest_cmed_file_correct (files : List FileEntry) :
    (find_latest_cmed_file files = none ↔ ∀ f ∈ files, matches_xls_glob f.name = false) ∧
    ∀ f, find_latest_cmed_file files = some f →
      f ∈ files ∧ matches_xls_glob f.name = true ∧
      ∀ g ∈ files, matches_xls_glob g.name = true → g.mtime ≤ f.mtime := by
  unfold find_latest_cmed_file
  cases h : files.filter (fun f => matches_xls_glob f.name) with
  | nil =>
    refine ⟨⟨fun _ => ?_, fun _ => rfl⟩, fun f hf => by simp at hf⟩
    intro f hf
    have := List.filter_eq_nil_iff.mp h f hf
    simpa using this
  | cons f0 fs =>
    constructor
    · constructor
      · intro habs
        exact absurd habs (by simp)
      · intro hall
        have hf0 : f0 ∈ files.filter (fun f => matches_xls_glob f.name) := by
          rw [h]
          exact List.mem_cons_self _ _
        have := List.mem_filter.mp hf0
        exact absurd (hall f0 this.1) (by simp [this.2])
    · intro f hf
      have hfeq : f = max_by_mtime f0 fs := by
        injection hf with hf
        exact hf.symm
      have hmem : max_by_mtime f0 fs ∈ files.filter (fun f => matches_xls_glob f.name) := by
        rw [h]
        exact max_by_mtime_mem fs f0
      have hm := List.mem_filter.mp hmem
      subst hfeq
      refine ⟨hm.1, hm.2, ?_⟩
      intro g hg hgp
      have hgf : g ∈ files.filter (fun f => matches_xls_glob f.name) :=
        List.mem_filter.mpr ⟨hg, hgp⟩
      rw [h] at hgf
      exact max_by_mtime_ge fs f0 g hgf

/-- Witness for the C8 theorem at a concrete input. -/
theorem find_latest_cmed_file_correct_witness :
    FileEntry.mk "b.xlsx" 9 ∈ [FileEntry.mk "a.xls" 5, FileEntry.mk "b.xlsx" 9] ∧
    matches_xls_glob "b.xlsx" = true ∧ (5 : Nat) ≤ 9 :=
  have h := (find_latest_cmed_file_correct [⟨"a.xls", 5⟩, ⟨"b.xlsx", 9⟩]).2
    ⟨"b.xlsx", 9⟩ (by rfl)
  ⟨h.1, h.2.1, h.2.2 ⟨"a.xls", 5⟩ (by decide) (by rfl)⟩

/-- Claim C9: the output assembly keeps exactly the declared
`final_columns` that are present in the joined table, in declared
order, and silently omits absent declared columns. -/
theorem final_columns_exist_spec (present : List String) :
    (final_columns_exist present).Sublist final_columns ∧
    ∀ c, c ∈ final_columns_exist present ↔ (c ∈ final_columns ∧ c ∈ present) := by
  constructor
  · exact List.filter_sublist final_columns
  · intro c
    simp [final_columns_exist, List.mem_filter, List.contains]

end Pipeline
